import Mathlib

/-!
Shallow embedding of `src/merra_scraper_latest.py`, a MERRA-2 scraping
script.  Python floats are modelled as exact rationals, Python exceptions
as `Except String`, and the two external collaborators — the
multi-connection downloader and the NetCDF reader — as, respectively, a
recorded effect (the list of `start_download` calls issued) and an oracle
function from local paths to either a series of field values or an
exception.
-/

/-- Models Python `str.split` with a one-character separator, on explicit
character lists; the accumulator holds the current piece reversed. -/
def splitCharAux (c : Char) : List Char → List Char → List String
  | [], acc => [String.mk acc.reverse]
  | x :: xs, acc =>
    if x = c then String.mk acc.reverse :: splitCharAux c xs []
    else splitCharAux c xs (x :: acc)

/-- Models Python `date.split('-')` (line 164 and line 112 of the source)
for a single-character separator. -/
def pySplit (s : String) (c : Char) : List String :=
  splitCharAux c s.data []

/-- Accumulator loop for `pyInt`: value of an all-digit character list. -/
def digitsValAux : List Char → Nat → Option Nat
  | [], acc => some acc
  | ch :: cs, acc =>
    if ch.isDigit then digitsValAux cs (acc * 10 + (ch.toNat - 48)) else none

/-- Value of a nonempty all-digit character list, `none` otherwise. -/
def digitsVal : List Char → Option Nat
  | [] => none
  | l => digitsValAux l 0

/-- Models Python `int(s)` on canonical decimal strings: an optional
leading minus sign followed by decimal digits.  Any other string raises
`ValueError`, modelled as `none`. -/
def pyInt (s : String) : Option Int :=
  match s.data with
  | '-' :: rest => (digitsVal rest).map (fun n => -(n : Int))
  | l => (digitsVal l).map (fun n => (n : Int))

/-- Line 30: ID of the field in MERRA-2. -/
def field_id : String := "T2M"

/-- Line 31: name under which the field's downloads are stored. -/
def field_name : String := "temperature_MERRA"

/-- Line 32: name of the database holding the field. -/
def database_name : String := "M2I1NXASM"

/-- Line 33: ID of the database holding the field. -/
def database_id : String := "inst1_2d_asm_Nx"

/-- Line 34: `conversion_factor = lambda x: x - 273.15`. -/
def conversion_factor (x : ℚ) : ℚ := x - 273.15

/-- Line 35: the configured aggregation statistic. -/
def aggregator : String := "mean"

/-- Line 39: `lat_coords = np.arange(0, 361, dtype=int)`. -/
def lat_coords : List ℤ := (List.range 361).map (fun n : ℕ => (n : ℤ))

/-- Line 40: `lon_coords = np.arange(0, 576, dtype=int)`. -/
def lon_coords : List ℤ := (List.range 576).map (fun n : ℕ => (n : ℤ))

/-- Line 41: base URL of the OPeNDAP database. -/
def database_url : String :=
  "https://goldsmr4.gesdisc.eosdis.nasa.gov/opendap/MERRA2/" ++ database_name ++ ".5.12.4/"

/-- Lines 47-67 after the `int(year)` conversion: bracket the year into
the file-number code; years below 1980 fall to the `else` branch, which
raises. -/
def translate_year_to_file_number_int (year : ℤ) : Except String String :=
  if 1980 ≤ year ∧ year < 1992 then .ok "100"
  else if 1992 ≤ year ∧ year < 2001 then .ok "200"
  else if 2001 ≤ year ∧ year < 2011 then .ok "300"
  else if 2011 ≤ year then .ok "400"
  else .error "The specified year is out of range."

/-- Lines 47-67: the source receives the year as a string and converts it
with `int(year)`; a non-numeric string raises `ValueError`. -/
def translate_year_to_file_number (year : String) : Except String String :=
  match pyInt year with
  | some y => translate_year_to_file_number_int y
  | none => .error "ValueError: invalid literal for int"

/-- Lines 78-82: `'\x7bloc\x7d_\x7bnum\x7d.\x7bname\x7d.\x7by\x7d\x7bm\x7d\x7bd\x7d.nc4'`
formatted from the location label, the year's file number, the dataset
name and the date parts. -/
def generate_file_name (loc year month day dataset_name : String) :
    Except String String :=
  (translate_year_to_file_number year).map (fun file_num =>
    loc ++ "_" ++ file_num ++ "." ++ dataset_name ++ "." ++ year ++ month ++ day ++ ".nc4")

/-- Lines 84-92: `(latitude + 90) / 0.5`. -/
def translate_lat_to_geos5_native (latitude : ℚ) : ℚ := (latitude + 90) / 0.5

/-- Lines 94-96: `(longitude + 180) / 0.625`. -/
def translate_lon_to_geos5_native (longitude : ℚ) : ℚ := (longitude + 180) / 0.625

/-- Minimum of the nonempty list `x :: xs`, as a left fold. -/
def foldlMin (x : ℚ) (xs : List ℚ) : ℚ := xs.foldl min x

/-- Models `np.argmin`: the index of the first occurrence of the minimum
value (numpy documents that on ties the first occurrence is returned). -/
def argminList : List ℚ → Nat
  | [] => 0
  | x :: xs => (x :: xs).indexOf (foldlMin x xs)

/-- Line 108, the intermediate array `np.abs(coord_array - calc_coord)`:
elementwise absolute difference between the integer grid array and the
fractional coordinate. -/
def absDiffs (calc_coord : ℚ) (coord_array : List ℤ) : List ℚ :=
  coord_array.map (fun a : ℤ => |(a : ℚ) - calc_coord|)

/-- Lines 98-109: `index = np.abs(coord_array - calc_coord).argmin();
return coord_array[index]`. -/
def find_closest_coordinate (calc_coord : ℚ) (coord_array : List ℤ) : ℤ :=
  coord_array.getD (argminList (absDiffs calc_coord coord_array)) 0

/-- Lines 70-75: append the time, latitude and longitude subscripts to
each requested parameter and join with commas. -/
def generate_url_params (parameter : List String)
    (time_para lat_para lon_para : String) : String :=
  String.intercalate ","
    (((parameter.map (fun x => x ++ time_para)).map (fun x => x ++ lat_para)).map
      (fun x => x ++ lon_para))

/-- Lines 111-117: split the date into year, month, day (raising on a
mismatched shape) and assemble the query URL. -/
def generate_download_link (loc date base_url dataset_name url_params : String) :
    Except String String :=
  match pySplit date '-' with
  | [year, month, day] =>
    (generate_file_name loc year month day dataset_name).map (fun file_name =>
      base_url ++ year ++ "/" ++ month ++ "/" ++ file_name ++ ".nc4?" ++ url_params)
  | _ => .error "ValueError: unpacking date failed"

/-- Lines 120-131: translate and snap the coordinates, format the index
subscripts, and build the full download URL. -/
def generate_url_with_params (loc : String) (lat lon : ℚ) (date : String) :
    Except String String :=
  let lat_closest := find_closest_coordinate (translate_lat_to_geos5_native lat) lat_coords
  let lon_closest := find_closest_coordinate (translate_lon_to_geos5_native lon) lon_coords
  let requested_lat := "[" ++ toString lat_closest ++ ":1:" ++ toString lat_closest ++ "]"
  let requested_lon := "[" ++ toString lon_closest ++ ":1:" ++ toString lon_closest ++ "]"
  let parameter := generate_url_params [field_id] "[0:1:23]" requested_lat requested_lon
  generate_download_link loc date database_url database_id parameter

/-- Arithmetic mean: the reduction `agg(aggregator)` performs on line 181
with the configured aggregator `"mean"`. -/
def listMean (l : List ℚ) : ℚ := l.sum / (l.length : ℚ)

/-- One row of the input station table (columns read on lines 162-163). -/
structure Row where
  station_name : String
  latitude : ℚ
  longitude : ℚ
  collected_at : String
deriving DecidableEq

/-- Observable outcome of one iteration of the row loop: the
`start_download` calls issued (download path and URL list of each), the
status lines printed, and the value assigned to the row's new column
(`none` when the row was skipped or its aggregation raised). -/
structure StepResult where
  downloads : List (String × List String)
  logs : List String
  value : Option ℚ
deriving DecidableEq

/-- Lines 178-185, the try/except around opening and reducing the cached
file.  `oracle path = .ok series` means `xr.open_mfdataset` succeeds and
the field's column holds `series`; `.error` means some exception was
raised there, which the except branch catches and logs. -/
def aggStep (oracle : String → Except String (List ℚ))
    (path loc date : String) : List String × Option ℚ :=
  match oracle path with
  | .ok series => ([], some (conversion_factor (listMean series)))
  | .error _ =>
    (["Error while reading file: " ++ field_name ++ " of " ++ loc ++ " @ " ++ date], none)

/-- Lines 161-185, one iteration of the row loop: unpack the date, skip
years before 1980, compute the expected file name with the constant
location label `"MERRA2"`, download when the local path is absent from the
filesystem `fs`, then attempt aggregation.  Exceptions outside the
try/except (malformed date, non-numeric year) abort the batch and are
returned as `.error`. -/
def processRow (fs : List String) (oracle : String → Except String (List ℚ))
    (r : Row) : Except String StepResult :=
  match pySplit r.collected_at '-' with
  | [year, month, day] =>
    match pyInt year with
    | none => .error "ValueError: invalid literal for int"
    | some yearInt =>
      if yearInt < 1980 then .ok ⟨[], [], none⟩
      else
        match generate_file_name "MERRA2" year month day database_id with
        | .error e => .error e
        | .ok file_name =>
          let path := field_name ++ "/" ++ r.station_name ++ "/" ++ file_name
          if path ∈ fs then
            let ag := aggStep oracle path r.station_name r.collected_at
            .ok ⟨[], ("File already downloaded: " ++ field_name ++ " of " ++
              r.station_name ++ " @ " ++ r.collected_at) :: ag.1, ag.2⟩
          else
            match generate_url_with_params "MERRA2" r.latitude r.longitude r.collected_at with
            | .error e => .error e
            | .ok url =>
              let ag := aggStep oracle path r.station_name r.collected_at
              .ok ⟨[(field_name ++ "/" ++ r.station_name, [url])],
                ("Downloading file: " ++ field_name ++ " of " ++
                  r.station_name ++ " @ " ++ r.collected_at) :: ag.1, ag.2⟩
  | _ => .error "ValueError: unpacking date failed"

/-- Lines 161-185 iterated over the whole table, row by row; an uncaught
exception aborts the batch. -/
def processTable (fs : List String) (oracle : String → Except String (List ℚ)) :
    List Row → Except String (List StepResult)
  | [] => .ok []
  | r :: rs =>
    match processRow fs oracle r with
    | .error e => .error e
    | .ok s =>
      match processTable fs oracle rs with
      | .error e => .error e
      | .ok ss => .ok (s :: ss)

/-- The augmented table the batch writes out on line 186: each input row
paired with its new-column value (`none` = the cell is left empty). -/
def runBatch (fs : List String) (oracle : String → Except String (List ℚ)) :
    List Row → Except String (List (Row × Option ℚ))
  | [] => .ok []
  | r :: rs =>
    match processRow fs oracle r with
    | .error e => .error e
    | .ok s =>
      match runBatch fs oracle rs with
      | .error e => .error e
      | .ok out => .ok ((r, s.value) :: out)

/-- Line 186: the output CSV path is the input path with the processed
suffix appended. -/
def out_path (input_path : String) : String := input_path ++ "_MERRA2_processed.csv"

example : pySplit "2015-06-01" '-' = ["2015", "06", "01"] := rfl
example : pyInt "2015" = some 2015 := rfl
example : pyInt "-12" = some (-12) := rfl
example : pyInt "20x5" = none := rfl
example : translate_year_to_file_number "2015" = .ok "400" := rfl
example : generate_file_name "MERRA2" "2015" "06" "01" database_id =
    .ok "MERRA2_400.inst1_2d_asm_Nx.20150601.nc4" := rfl
example : translate_lat_to_geos5_native 40 = 260 := by norm_num [translate_lat_to_geos5_native]
example : toString (260 : ℤ) = "260" := rfl

/-! ### The minimum scan behind np.argmin -/

theorem foldlMin_mem (xs : List ℚ) : ∀ x : ℚ, foldlMin x xs ∈ x :: xs := by
  induction xs with
  | nil => intro x; simp [foldlMin]
  | cons y ys ih =>
    intro x
    have h : List.foldl min (min x y) ys ∈ (min x y) :: ys := by
      simpa [foldlMin] using ih (min x y)
    have hgoal : foldlMin x (y :: ys) = List.foldl min (min x y) ys := by
      simp [foldlMin]
    rw [hgoal]
    rcases List.mem_cons.mp h with h1 | h1
    · rcases le_total x y with hxy | hxy
      · rw [h1, min_eq_left hxy]; exact List.mem_cons_self _ _
      · rw [h1, min_eq_right hxy]
        exact List.mem_cons.mpr (Or.inr (List.mem_cons_self _ _))
    · exact List.mem_cons.mpr (Or.inr (List.mem_cons.mpr (Or.inr h1)))

theorem foldlMin_le (xs : List ℚ) : ∀ x y : ℚ, y ∈ x :: xs → foldlMin x xs ≤ y := by
  induction xs with
  | nil =>
    intro x y hy
    rcases List.mem_cons.mp hy with h | h
    · simp [foldlMin, h]
    · simp at h
  | cons z zs ih =>
    intro x y hy
    have hstep : foldlMin x (z :: zs) = foldlMin (min x z) zs := by
      simp [foldlMin]
    rcases List.mem_cons.mp hy with h | h
    · subst h
      calc foldlMin y (z :: zs) = foldlMin (min y z) zs := hstep
        _ ≤ min y z := ih (min y z) (min y z) (List.mem_cons_self _ _)
        _ ≤ y := min_le_left _ _
    · rcases List.mem_cons.mp h with h1 | h1
      · subst h1
        calc foldlMin x (y :: zs) = foldlMin (min x y) zs := by simp [foldlMin]
          _ ≤ min x y := ih (min x y) (min x y) (List.mem_cons_self _ _)
          _ ≤ y := min_le_right _ _
      · calc foldlMin x (z :: zs) = foldlMin (min x z) zs := hstep
          _ ≤ y := ih (min x z) y (List.mem_cons.mpr (Or.inr h1))

/-- Entries strictly before the index found by `List.indexOf` differ from
the sought value. -/
theorem getD_ne_of_lt_indexOf (a : ℚ) :
    ∀ (l : List ℚ) (j : Nat), j < l.indexOf a → l.getD j 0 ≠ a := by
  intro l
  induction l with
  | nil => intro j hj; simp [List.indexOf] at hj
  | cons b bs ih =>
    intro j hj
    by_cases hba : b = a
    · rw [List.indexOf_cons_eq _ hba] at hj; omega
    · rw [List.indexOf_cons_ne _ hba] at hj
      match j with
      | 0 => simpa using hba
      | Nat.succ k =>
        have := ih k (by omega)
        simpa using this

theorem argminList_lt (x : ℚ) (xs : List ℚ) :
    argminList (x :: xs) < (x :: xs).length := by
  simp only [argminList]
  exact List.indexOf_lt_length.mpr (foldlMin_mem xs x)

theorem argminList_getD (x : ℚ) (xs : List ℚ) :
    (x :: xs).getD (argminList (x :: xs)) 0 = foldlMin x xs := by
  have h : List.indexOf (foldlMin x xs) (x :: xs) < (x :: xs).length :=
    List.indexOf_lt_length.mpr (foldlMin_mem xs x)
  simp only [argminList]
  rw [List.getD_eq_getElem _ _ h]
  exact List.getElem_indexOf h

theorem argminList_min (x : ℚ) (xs : List ℚ) :
    ∀ j, j < (x :: xs).length →
      (x :: xs).getD (argminList (x :: xs)) 0 ≤ (x :: xs).getD j 0 := by
  intro j hj
  rw [argminList_getD]
  apply foldlMin_le
  rw [List.getD_eq_getElem _ _ hj]
  exact List.getElem_mem hj

theorem argminList_first (x : ℚ) (xs : List ℚ) :
    ∀ j, j < argminList (x :: xs) →
      (x :: xs).getD (argminList (x :: xs)) 0 < (x :: xs).getD j 0 := by
  intro j hj
  have hlt : j < (x :: xs).length := hj.trans (argminList_lt x xs)
  have hne : (x :: xs).getD j 0 ≠ foldlMin x xs := by
    apply getD_ne_of_lt_indexOf
    simpa [argminList] using hj
  have hle := argminList_min x xs j hlt
  have hgd := argminList_getD x xs
  refine lt_of_le_of_ne hle ?_
  rw [hgd]
  exact Ne.symm hne

theorem absDiffs_length (c : ℚ) (arr : List ℤ) :
    (absDiffs c arr).length = arr.length := by
  simp [absDiffs]

theorem absDiffs_cons (c : ℚ) (a : ℤ) (as : List ℤ) :
    absDiffs c (a :: as) = (|(a : ℚ) - c|) :: absDiffs c as := by
  simp [absDiffs]

/-- The distance array read back at an index of the underlying grid
array. -/
theorem absDiffs_getD (c : ℚ) (arr : List ℤ) (j : Nat) (hj : j < arr.length) :
    (absDiffs c arr).getD j 0 = |((arr.getD j 0 : ℤ) : ℚ) - c| := by
  have hj2 : j < (List.map (fun a : ℤ => |(a : ℚ) - c|) arr).length := by simpa using hj
  rw [absDiffs, List.getD_eq_getElem _ _ hj2, List.getElem_map, List.getD_eq_getElem _ _ hj]

/-- Full behaviour of the snapping step: the chosen index is in range, its
distance is minimal, every strictly earlier index has strictly larger
distance (ties go to the first minimizer), and the returned value is the
array entry at that index. -/
theorem find_closest_spec (c : ℚ) (arr : List ℤ) (h : arr ≠ []) :
    argminList (absDiffs c arr) < arr.length ∧
    (∀ j, j < arr.length →
      |((arr.getD (argminList (absDiffs c arr)) 0 : ℤ) : ℚ) - c| ≤
        |((arr.getD j 0 : ℤ) : ℚ) - c|) ∧
    (∀ j, j < argminList (absDiffs c arr) →
      |((arr.getD (argminList (absDiffs c arr)) 0 : ℤ) : ℚ) - c| <
        |((arr.getD j 0 : ℤ) : ℚ) - c|) ∧
    find_closest_coordinate c arr = arr.getD (argminList (absDiffs c arr)) 0 := by
  match arr with
  | [] => exact absurd rfl h
  | a :: as =>
    have hlt : argminList (absDiffs c (a :: as)) < (a :: as).length := by
      rw [absDiffs_cons]
      have := argminList_lt (|(a : ℚ) - c|) (absDiffs c as)
      simpa [absDiffs_length] using this
    refine ⟨hlt, ?_, ?_, rfl⟩
    · intro j hj
      have h1 := argminList_min (|(a : ℚ) - c|) (absDiffs c as) j
        (by simpa [absDiffs_length] using hj)
      rw [← absDiffs_cons] at h1
      rw [absDiffs_getD c (a :: as) _ hlt, absDiffs_getD c (a :: as) j hj] at h1
      exact h1
    · intro j hj
      have hj2 : j < argminList (absDiffs c (a :: as)) := hj
      rw [absDiffs_cons] at hj2
      have h1 := argminList_first (|(a : ℚ) - c|) (absDiffs c as) j hj2
      rw [← absDiffs_cons] at h1
      have hjlt : j < (a :: as).length := hj.trans hlt
      rw [absDiffs_getD c (a :: as) _ hlt, absDiffs_getD c (a :: as) j hjlt] at h1
      exact h1

/-- A snapping characterisation for evaluation at concrete inputs: an
index whose distance is strictly below every other index's distance is
the one selected. -/
theorem find_closest_eval (c : ℚ) (arr : List ℤ) (i : Nat) (hi : i < arr.length)
    (huniq : ∀ j, j < arr.length → j ≠ i →
      |((arr.getD i 0 : ℤ) : ℚ) - c| < |((arr.getD j 0 : ℤ) : ℚ) - c|) :
    find_closest_coordinate c arr = arr.getD i 0 := by
  have hne : arr ≠ [] := by
    intro e
    rw [e] at hi
    simp at hi
  obtain ⟨hk, hmin, _, heq⟩ := find_closest_spec c arr hne
  by_cases hki : argminList (absDiffs c arr) = i
  · rw [heq, hki]
  · exact absurd (hmin i hi) (not_le.mpr (huniq _ hk hki))

theorem find_closest_mem (c : ℚ) (arr : List ℤ) (h : arr ≠ []) :
    find_closest_coordinate c arr ∈ arr := by
  obtain ⟨hk, _, _, heq⟩ := find_closest_spec c arr h
  rw [heq, List.getD_eq_getElem _ _ hk]
  exact List.getElem_mem hk

theorem lat_coords_length : lat_coords.length = 361 := by simp [lat_coords]

theorem lon_coords_length : lon_coords.length = 576 := by simp [lon_coords]

theorem lat_coords_ne_nil : lat_coords ≠ [] := by
  intro e
  have := lat_coords_length
  rw [e] at this
  simp at this

theorem lon_coords_ne_nil : lon_coords ≠ [] := by
  intro e
  have := lon_coords_length
  rw [e] at this
  simp at this

theorem lat_coords_getD (j : Nat) (hj : j < 361) : lat_coords.getD j 0 = (j : ℤ) := by
  have hj2 : j < lat_coords.length := by rw [lat_coords_length]; exact hj
  have hj3 : j < (List.range 361).length := by simpa using hj
  rw [List.getD_eq_getElem _ _ hj2]
  simp only [lat_coords, List.getElem_map, List.getElem_range]

theorem lon_coords_getD (j : Nat) (hj : j < 576) : lon_coords.getD j 0 = (j : ℤ) := by
  have hj2 : j < lon_coords.length := by rw [lon_coords_length]; exact hj
  rw [List.getD_eq_getElem _ _ hj2]
  simp only [lon_coords, List.getElem_map, List.getElem_range]

theorem mem_lat_coords_bounds (x : ℤ) (hx : x ∈ lat_coords) : 0 ≤ x ∧ x ≤ 360 := by
  simp only [lat_coords, List.mem_map, List.mem_range] at hx
  obtain ⟨n, hn, rfl⟩ := hx
  refine ⟨?_, ?_⟩ <;> omega

theorem mem_lon_coords_bounds (x : ℤ) (hx : x ∈ lon_coords) : 0 ≤ x ∧ x ≤ 575 := by
  simp only [lon_coords, List.mem_map, List.mem_range] at hx
  obtain ⟨n, hn, rfl⟩ := hx
  refine ⟨?_, ?_⟩ <;> omega

/-- The exact grid point 260 is snapped to itself. -/
theorem snap_lat_260 : find_closest_coordinate 260 lat_coords = 260 := by
  have h260 : (260 : Nat) < 361 := by norm_num
  have h := find_closest_eval 260 lat_coords 260 (by rw [lat_coords_length]; norm_num) ?_
  · rw [h, lat_coords_getD 260 h260]
    norm_num
  · intro j hj hne
    rw [lat_coords_length] at hj
    rw [lat_coords_getD 260 h260, lat_coords_getD j hj]
    have h1 : |(((260 : Nat) : ℤ) : ℚ) - 260| = 0 := by norm_num
    rw [h1]
    apply abs_pos.mpr
    apply sub_ne_zero.mpr
    intro hc
    apply hne
    exact_mod_cast hc

/-- The exact grid point 120 is snapped to itself. -/
theorem snap_lon_120 : find_closest_coordinate 120 lon_coords = 120 := by
  have h120 : (120 : Nat) < 576 := by norm_num
  have h := find_closest_eval 120 lon_coords 120 (by rw [lon_coords_length]; norm_num) ?_
  · rw [h, lon_coords_getD 120 h120]
    norm_num
  · intro j hj hne
    rw [lon_coords_length] at hj
    rw [lon_coords_getD 120 h120, lon_coords_getD j hj]
    have h1 : |(((120 : Nat) : ℤ) : ℚ) - 120| = 0 := by norm_num
    rw [h1]
    apply abs_pos.mpr
    apply sub_ne_zero.mpr
    intro hc
    apply hne
    exact_mod_cast hc

theorem translate_lat_40 : translate_lat_to_geos5_native 40 = 260 := by
  norm_num [translate_lat_to_geos5_native]

theorem translate_lon_m105 : translate_lon_to_geos5_native (-105) = 120 := by
  norm_num [translate_lon_to_geos5_native]

/-! ### Branch behaviour of the row loop -/

theorem aggStep_ok (oracle : String → Except String (List ℚ)) (path loc date : String)
    (series : List ℚ) (h : oracle path = .ok series) :
    aggStep oracle path loc date = ([], some (conversion_factor (listMean series))) := by
  simp [aggStep, h]

theorem aggStep_err (oracle : String → Except String (List ℚ)) (path loc date : String)
    (e : String) (h : oracle path = .error e) :
    aggStep oracle path loc date =
      (["Error while reading file: " ++ field_name ++ " of " ++ loc ++ " @ " ++ date], none) := by
  simp [aggStep, h]

/-- When the year and file name resolve, the URL builder succeeds and
produces the base path, date directories, file name and the subscript
query computed from the row's coordinates. -/
theorem url_ok_of_fn_ok (lat lon : ℚ) (date y m d fn : String)
    (hsplit : pySplit date '-' = [y, m, d])
    (hfn : generate_file_name "MERRA2" y m d database_id = .ok fn) :
    generate_url_with_params "MERRA2" lat lon date =
      .ok (database_url ++ y ++ "/" ++ m ++ "/" ++ fn ++ ".nc4?" ++
        generate_url_params [field_id] "[0:1:23]"
          ("[" ++ toString (find_closest_coordinate (translate_lat_to_geos5_native lat) lat_coords)
            ++ ":1:" ++
            toString (find_closest_coordinate (translate_lat_to_geos5_native lat) lat_coords)
            ++ "]")
          ("[" ++ toString (find_closest_coordinate (translate_lon_to_geos5_native lon) lon_coords)
            ++ ":1:" ++
            toString (find_closest_coordinate (translate_lon_to_geos5_native lon) lon_coords)
            ++ "]")) := by
  unfold generate_url_with_params generate_download_link
  rw [hsplit]
  simp only [hfn, Except.map]

/-- A row whose collection year parses below 1980 is skipped: no download
call, no log line, no value. -/
theorem processRow_skip (fs : List String) (oracle : String → Except String (List ℚ))
    (r : Row) (y m d : String) (yi : ℤ)
    (hsplit : pySplit r.collected_at '-' = [y, m, d])
    (hyi : pyInt y = some yi) (hlt : yi < 1980) :
    processRow fs oracle r = .ok ⟨[], [], none⟩ := by
  unfold processRow
  rw [hsplit]
  simp only [hyi, if_pos hlt]

/-- A row whose expected file is already on disk issues no download and
goes straight to aggregation. -/
theorem processRow_hit (fs : List String) (oracle : String → Except String (List ℚ))
    (r : Row) (y m d : String) (yi : ℤ) (fn : String)
    (hsplit : pySplit r.collected_at '-' = [y, m, d])
    (hyi : pyInt y = some yi) (hge : ¬ yi < 1980)
    (hfn : generate_file_name "MERRA2" y m d database_id = .ok fn)
    (hmem : (field_name ++ "/" ++ r.station_name ++ "/" ++ fn) ∈ fs) :
    processRow fs oracle r = .ok
      ⟨[],
        ("File already downloaded: " ++ field_name ++ " of " ++ r.station_name ++ " @ " ++
          r.collected_at) ::
          (aggStep oracle (field_name ++ "/" ++ r.station_name ++ "/" ++ fn)
            r.station_name r.collected_at).1,
        (aggStep oracle (field_name ++ "/" ++ r.station_name ++ "/" ++ fn)
          r.station_name r.collected_at).2⟩ := by
  unfold processRow
  rw [hsplit]
  simp only [hyi, if_neg hge, hfn, if_pos hmem]

/-- A row whose expected file is absent issues exactly one download call
carrying exactly the single computed URL, then aggregates. -/
theorem processRow_miss (fs : List String) (oracle : String → Except String (List ℚ))
    (r : Row) (y m d : String) (yi : ℤ) (fn url : String)
    (hsplit : pySplit r.collected_at '-' = [y, m, d])
    (hyi : pyInt y = some yi) (hge : ¬ yi < 1980)
    (hfn : generate_file_name "MERRA2" y m d database_id = .ok fn)
    (hmem : (field_name ++ "/" ++ r.station_name ++ "/" ++ fn) ∉ fs)
    (hurl : generate_url_with_params "MERRA2" r.latitude r.longitude r.collected_at = .ok url) :
    processRow fs oracle r = .ok
      ⟨[(field_name ++ "/" ++ r.station_name, [url])],
        ("Downloading file: " ++ field_name ++ " of " ++ r.station_name ++ " @ " ++
          r.collected_at) ::
          (aggStep oracle (field_name ++ "/" ++ r.station_name ++ "/" ++ fn)
            r.station_name r.collected_at).1,
        (aggStep oracle (field_name ++ "/" ++ r.station_name ++ "/" ++ fn)
          r.station_name r.collected_at).2⟩ := by
  unfold processRow
  rw [hsplit]
  simp only [hyi, if_neg hge, hfn, if_neg hmem, hurl]

/-! ### Claims -/

/-- C1: for every latitude in [-90, 90] and longitude in [-180, 180], the
affine translation followed by nearest-entry snapping over the fixed index
arrays returns a pair with lat index in 0..360 and lon index in 0..575
inclusive. -/
theorem merra_claim_C1 (lat lon : ℚ) (h1 : -90 ≤ lat) (h2 : lat ≤ 90)
    (h3 : -180 ≤ lon) (h4 : lon ≤ 180) :
    0 ≤ find_closest_coordinate (translate_lat_to_geos5_native lat) lat_coords ∧
    find_closest_coordinate (translate_lat_to_geos5_native lat) lat_coords ≤ 360 ∧
    0 ≤ find_closest_coordinate (translate_lon_to_geos5_native lon) lon_coords ∧
    find_closest_coordinate (translate_lon_to_geos5_native lon) lon_coords ≤ 575 := by
  have hlat := mem_lat_coords_bounds _
    (find_closest_mem (translate_lat_to_geos5_native lat) lat_coords lat_coords_ne_nil)
  have hlon := mem_lon_coords_bounds _
    (find_closest_mem (translate_lon_to_geos5_native lon) lon_coords lon_coords_ne_nil)
  exact ⟨hlat.1, hlat.2, hlon.1, hlon.2⟩

theorem merra_claim_C1_witness :
    (-90 ≤ (40 : ℚ)) ∧ ((40 : ℚ) ≤ 90) ∧ (-180 ≤ (-105 : ℚ)) ∧ ((-105 : ℚ) ≤ 180) ∧
    (0 ≤ find_closest_coordinate (translate_lat_to_geos5_native 40) lat_coords ∧
      find_closest_coordinate (translate_lat_to_geos5_native 40) lat_coords ≤ 360 ∧
      0 ≤ find_closest_coordinate (translate_lon_to_geos5_native (-105)) lon_coords ∧
      find_closest_coordinate (translate_lon_to_geos5_native (-105)) lon_coords ≤ 575) :=
  ⟨by norm_num, by norm_num, by norm_num, by norm_num,
    merra_claim_C1 40 (-105) (by norm_num) (by norm_num) (by norm_num) (by norm_num)⟩

/-- C7: nearest-index snapping selects the first minimizer of absolute
difference over the fixed index array (index in range, minimal distance,
every strictly earlier index strictly farther), returns that array entry,
and is deterministic. -/
theorem merra_claim_C7 (c : ℚ) (arr : List ℤ) (h : arr ≠ []) :
    argminList (absDiffs c arr) < arr.length ∧
    (∀ j, j < arr.length →
      |((arr.getD (argminList (absDiffs c arr)) 0 : ℤ) : ℚ) - c| ≤
        |((arr.getD j 0 : ℤ) : ℚ) - c|) ∧
    (∀ j, j < argminList (absDiffs c arr) →
      |((arr.getD (argminList (absDiffs c arr)) 0 : ℤ) : ℚ) - c| <
        |((arr.getD j 0 : ℤ) : ℚ) - c|) ∧
    find_closest_coordinate c arr = arr.getD (argminList (absDiffs c arr)) 0 ∧
    find_closest_coordinate c arr = find_closest_coordinate c arr := by
  obtain ⟨ha, hb, hc, hd⟩ := find_closest_spec c arr h
  exact ⟨ha, hb, hc, hd, rfl⟩

theorem merra_claim_C7_witness :
    (([(5 : ℤ), 7] : List ℤ) ≠ []) ∧
    (argminList (absDiffs 3 [(5 : ℤ), 7]) < ([(5 : ℤ), 7] : List ℤ).length ∧
      (∀ j, j < ([(5 : ℤ), 7] : List ℤ).length →
        |((([(5 : ℤ), 7] : List ℤ).getD (argminList (absDiffs 3 [(5 : ℤ), 7])) 0 : ℤ) : ℚ) - 3| ≤
          |((([(5 : ℤ), 7] : List ℤ).getD j 0 : ℤ) : ℚ) - 3|) ∧
      (∀ j, j < argminList (absDiffs 3 [(5 : ℤ), 7]) →
        |((([(5 : ℤ), 7] : List ℤ).getD (argminList (absDiffs 3 [(5 : ℤ), 7])) 0 : ℤ) : ℚ) - 3| <
          |((([(5 : ℤ), 7] : List ℤ).getD j 0 : ℤ) : ℚ) - 3|) ∧
      find_closest_coordinate 3 [(5 : ℤ), 7] =
        ([(5 : ℤ), 7] : List ℤ).getD (argminList (absDiffs 3 [(5 : ℤ), 7])) 0 ∧
      find_closest_coordinate 3 [(5 : ℤ), 7] = find_closest_coordinate 3 [(5 : ℤ), 7]) :=
  ⟨by simp, merra_claim_C7 3 [(5 : ℤ), 7] (by simp)⟩

/-- C2: the year-to-file-number translation maps the four historical
brackets to the codes 100 / 200 / 300 / 400 and raises exactly for years
before the earliest bracket (1980). -/
theorem merra_claim_C2 (y : String) (yi : ℤ) (hy : pyInt y = some yi) :
    (1980 ≤ yi → yi < 1992 → translate_year_to_file_number y = .ok "100") ∧
    (1992 ≤ yi → yi < 2001 → translate_year_to_file_number y = .ok "200") ∧
    (2001 ≤ yi → yi < 2011 → translate_year_to_file_number y = .ok "300") ∧
    (2011 ≤ yi → translate_year_to_file_number y = .ok "400") ∧
    ((∃ e, translate_year_to_file_number y = .error e) ↔ yi < 1980) := by
  have hstep : translate_year_to_file_number y = translate_year_to_file_number_int yi := by
    unfold translate_year_to_file_number
    rw [hy]
  rw [hstep]
  unfold translate_year_to_file_number_int
  refine ⟨?_, ?_, ?_, ?_, ?_⟩
  · intro ha hb
    rw [if_pos ⟨ha, hb⟩]
  · intro ha hb
    rw [if_neg (by omega : ¬(1980 ≤ yi ∧ yi < 1992)), if_pos ⟨ha, hb⟩]
  · intro ha hb
    rw [if_neg (by omega : ¬(1980 ≤ yi ∧ yi < 1992)),
      if_neg (by omega : ¬(1992 ≤ yi ∧ yi < 2001)), if_pos ⟨ha, hb⟩]
  · intro ha
    rw [if_neg (by omega : ¬(1980 ≤ yi ∧ yi < 1992)),
      if_neg (by omega : ¬(1992 ≤ yi ∧ yi < 2001)),
      if_neg (by omega : ¬(2001 ≤ yi ∧ yi < 2011)), if_pos ha]
  · constructor
    · rintro ⟨e, he⟩
      by_contra hge
      push_neg at hge
      split_ifs at he with hc1 hc2 hc3 hc4
      all_goals omega
    · intro hlt
      rw [if_neg (by omega : ¬(1980 ≤ yi ∧ yi < 1992)),
        if_neg (by omega : ¬(1992 ≤ yi ∧ yi < 2001)),
        if_neg (by omega : ¬(2001 ≤ yi ∧ yi < 2011)),
        if_neg (by omega : ¬(2011 ≤ yi))]
      exact ⟨_, rfl⟩

theorem merra_claim_C2_witness :
    translate_year_to_file_number "1985" = .ok "100" ∧
    translate_year_to_file_number "1995" = .ok "200" ∧
    translate_year_to_file_number "2005" = .ok "300" ∧
    translate_year_to_file_number "2015" = .ok "400" ∧
    (∃ e, translate_year_to_file_number "1979" = .error e) :=
  ⟨(merra_claim_C2 "1985" 1985 rfl).1 (by decide) (by decide),
   (merra_claim_C2 "1995" 1995 rfl).2.1 (by decide) (by decide),
   (merra_claim_C2 "2005" 2005 rfl).2.2.1 (by decide) (by decide),
   (merra_claim_C2 "2015" 2015 rfl).2.2.2.1 (by decide),
   (merra_claim_C2 "1979" 1979 rfl).2.2.2.2.mpr (by decide)⟩

theorem processTable_cons_ok (fs : List String) (oracle : String → Except String (List ℚ))
    (r : Row) (rs : List Row) (s : StepResult) (ss : List StepResult)
    (h1 : processRow fs oracle r = .ok s) (h2 : processTable fs oracle rs = .ok ss) :
    processTable fs oracle (r :: rs) = .ok (s :: ss) := by
  simp [processTable, h1, h2]

/-- C5: a row whose collection year is before 1980 triggers no download
call and no aggregation, leaves the new column unset, and the driver still
processes every subsequent row. -/
theorem merra_claim_C5 (fs : List String) (oracle : String → Except String (List ℚ))
    (r : Row) (y m d : String) (yi : ℤ) (post : List Row) (rs : List StepResult)
    (hsplit : pySplit r.collected_at '-' = [y, m, d])
    (hyi : pyInt y = some yi) (hlt : yi < 1980) :
    processRow fs oracle r = .ok ⟨[], [], none⟩ ∧
    (processTable fs oracle post = .ok rs →
      processTable fs oracle (r :: post) = .ok (⟨[], [], none⟩ :: rs)) := by
  have h := processRow_skip fs oracle r y m d yi hsplit hyi hlt
  exact ⟨h, fun hp => processTable_cons_ok fs oracle r post _ rs h hp⟩

theorem merra_claim_C5_witness :
    processRow [] (fun _ => Except.error "boom") ⟨"S", 1, 2, "1975-06-01"⟩ =
      .ok ⟨[], [], none⟩ ∧
    (processTable [] (fun _ => Except.error "boom") [] = .ok [] →
      processTable [] (fun _ => Except.error "boom") [⟨"S", 1, 2, "1975-06-01"⟩] =
        .ok [⟨[], [], none⟩]) :=
  merra_claim_C5 [] (fun _ => Except.error "boom") ⟨"S", 1, 2, "1975-06-01"⟩
    "1975" "06" "01" 1975 [] [] rfl rfl (by decide)

/-- C6: when opening or reducing the cached file raises, the driver logs a
diagnostic naming the station and the date, leaves the row's new field
unset, and continues with the remaining rows. -/
theorem merra_claim_C6 (fs : List String) (oracle : String → Except String (List ℚ))
    (r : Row) (y m d : String) (yi : ℤ) (fn e : String)
    (post : List Row) (rs : List StepResult)
    (hsplit : pySplit r.collected_at '-' = [y, m, d])
    (hyi : pyInt y = some yi) (hge : ¬ yi < 1980)
    (hfn : generate_file_name "MERRA2" y m d database_id = .ok fn)
    (herr : oracle (field_name ++ "/" ++ r.station_name ++ "/" ++ fn) = .error e) :
    ∃ s, processRow fs oracle r = .ok s ∧
      s.value = none ∧
      ("Error while reading file: " ++ field_name ++ " of " ++ r.station_name ++ " @ " ++
        r.collected_at) ∈ s.logs ∧
      (processTable fs oracle post = .ok rs →
        processTable fs oracle (r :: post) = .ok (s :: rs)) := by
  by_cases hmem : (field_name ++ "/" ++ r.station_name ++ "/" ++ fn) ∈ fs
  · have h := processRow_hit fs oracle r y m d yi fn hsplit hyi hge hfn hmem
    rw [aggStep_err oracle _ _ _ e herr] at h
    exact ⟨_, h, rfl, by simp,
      fun hp => processTable_cons_ok fs oracle r post _ rs h hp⟩
  · have hurl := url_ok_of_fn_ok r.latitude r.longitude r.collected_at y m d fn hsplit hfn
    have h := processRow_miss fs oracle r y m d yi fn _ hsplit hyi hge hfn hmem hurl
    rw [aggStep_err oracle _ _ _ e herr] at h
    exact ⟨_, h, rfl, by simp,
      fun hp => processTable_cons_ok fs oracle r post _ rs h hp⟩

theorem merra_claim_C6_witness :
    ∃ s, processRow
        [field_name ++ "/" ++ "S" ++ "/" ++ "MERRA2_400.inst1_2d_asm_Nx.20150601.nc4"]
        (fun _ => Except.error "boom") ⟨"S", 1, 2, "2015-06-01"⟩ = .ok s ∧
      s.value = none ∧
      ("Error while reading file: " ++ field_name ++ " of " ++
        (⟨"S", 1, 2, "2015-06-01"⟩ : Row).station_name ++ " @ " ++
        (⟨"S", 1, 2, "2015-06-01"⟩ : Row).collected_at) ∈ s.logs ∧
      (processTable
          [field_name ++ "/" ++ "S" ++ "/" ++ "MERRA2_400.inst1_2d_asm_Nx.20150601.nc4"]
          (fun _ => Except.error "boom") [] = .ok [] →
        processTable
          [field_name ++ "/" ++ "S" ++ "/" ++ "MERRA2_400.inst1_2d_asm_Nx.20150601.nc4"]
          (fun _ => Except.error "boom") [⟨"S", 1, 2, "2015-06-01"⟩] = .ok (s :: [])) :=
  merra_claim_C6
    [field_name ++ "/" ++ "S" ++ "/" ++ "MERRA2_400.inst1_2d_asm_Nx.20150601.nc4"]
    (fun _ => Except.error "boom") ⟨"S", 1, 2, "2015-06-01"⟩
    "2015" "06" "01" 2015 "MERRA2_400.inst1_2d_asm_Nx.20150601.nc4" "boom" [] []
    rfl rfl (by decide) rfl rfl

/-- C3: if the expected file already exists at the deterministic local
path, no download call is issued; otherwise exactly one download call is
issued, carrying exactly the single URL computed for the row. -/
theorem merra_claim_C3 (fs : List String) (oracle : String → Except String (List ℚ))
    (r : Row) (y m d : String) (yi : ℤ) (fn : String)
    (hsplit : pySplit r.collected_at '-' = [y, m, d])
    (hyi : pyInt y = some yi) (hge : ¬ yi < 1980)
    (hfn : generate_file_name "MERRA2" y m d database_id = .ok fn) :
    ((field_name ++ "/" ++ r.station_name ++ "/" ++ fn) ∈ fs →
      ∃ s, processRow fs oracle r = .ok s ∧ s.downloads = []) ∧
    ((field_name ++ "/" ++ r.station_name ++ "/" ++ fn) ∉ fs →
      ∃ u s, generate_url_with_params "MERRA2" r.latitude r.longitude r.collected_at = .ok u ∧
        processRow fs oracle r = .ok s ∧
        s.downloads = [(field_name ++ "/" ++ r.station_name, [u])]) := by
  constructor
  · intro hmem
    exact ⟨_, processRow_hit fs oracle r y m d yi fn hsplit hyi hge hfn hmem, rfl⟩
  · intro hmem
    have hurl := url_ok_of_fn_ok r.latitude r.longitude r.collected_at y m d fn hsplit hfn
    exact ⟨_, _, hurl,
      processRow_miss fs oracle r y m d yi fn _ hsplit hyi hge hfn hmem hurl, rfl⟩

theorem merra_claim_C3_witness :
    ((field_name ++ "/" ++ (⟨"S", 40, -105, "2015-06-01"⟩ : Row).station_name ++ "/" ++
        "MERRA2_400.inst1_2d_asm_Nx.20150601.nc4") ∈
          [field_name ++ "/" ++ "S" ++ "/" ++ "MERRA2_400.inst1_2d_asm_Nx.20150601.nc4"] →
      ∃ s, processRow
          [field_name ++ "/" ++ "S" ++ "/" ++ "MERRA2_400.inst1_2d_asm_Nx.20150601.nc4"]
          (fun _ => Except.ok [(300 : ℚ)]) ⟨"S", 40, -105, "2015-06-01"⟩ = .ok s ∧
        s.downloads = []) ∧
    ((field_name ++ "/" ++ (⟨"S", 40, -105, "2015-06-01"⟩ : Row).station_name ++ "/" ++
        "MERRA2_400.inst1_2d_asm_Nx.20150601.nc4") ∉
          [field_name ++ "/" ++ "S" ++ "/" ++ "MERRA2_400.inst1_2d_asm_Nx.20150601.nc4"] →
      ∃ u s, generate_url_with_params "MERRA2"
          (⟨"S", 40, -105, "2015-06-01"⟩ : Row).latitude
          (⟨"S", 40, -105, "2015-06-01"⟩ : Row).longitude
          (⟨"S", 40, -105, "2015-06-01"⟩ : Row).collected_at = .ok u ∧
        processRow
          [field_name ++ "/" ++ "S" ++ "/" ++ "MERRA2_400.inst1_2d_asm_Nx.20150601.nc4"]
          (fun _ => Except.ok [(300 : ℚ)]) ⟨"S", 40, -105, "2015-06-01"⟩ = .ok s ∧
        s.downloads =
          [(field_name ++ "/" ++ (⟨"S", 40, -105, "2015-06-01"⟩ : Row).station_name, [u])]) :=
  merra_claim_C3
    [field_name ++ "/" ++ "S" ++ "/" ++ "MERRA2_400.inst1_2d_asm_Nx.20150601.nc4"]
    (fun _ => Except.ok [(300 : ℚ)]) ⟨"S", 40, -105, "2015-06-01"⟩
    "2015" "06" "01" 2015 "MERRA2_400.inst1_2d_asm_Nx.20150601.nc4"
    rfl rfl (by decide) rfl

/-- A concrete 24-value hourly series standing in for the mocked file
read in the end-to-end scenario. -/
def scenario_series : List ℚ := (List.range 24).map (fun n : ℕ => (270 : ℚ) + (n : ℚ))

/-- C4: for the row (station X, lat 40.0, lon -105.0, date 2015-06-01)
the snapped grid pair is within bounds, the generated file name contains
20150601, and with a mocked read returning a known 24-value series, the
value written is the arithmetic mean of the series minus 273.15. -/
theorem merra_claim_C4 :
    pySplit (⟨"X", 40, -105, "2015-06-01"⟩ : Row).collected_at '-' = ["2015", "06", "01"] ∧
    (0 ≤ find_closest_coordinate (translate_lat_to_geos5_native 40) lat_coords ∧
      find_closest_coordinate (translate_lat_to_geos5_native 40) lat_coords ≤ 360 ∧
      0 ≤ find_closest_coordinate (translate_lon_to_geos5_native (-105)) lon_coords ∧
      find_closest_coordinate (translate_lon_to_geos5_native (-105)) lon_coords ≤ 575) ∧
    (∃ s1 s2, generate_file_name "MERRA2" "2015" "06" "01" database_id =
      .ok (s1 ++ "20150601" ++ s2)) ∧
    scenario_series.length = 24 ∧
    (∃ s, processRow [] (fun _ => Except.ok scenario_series)
        ⟨"X", 40, -105, "2015-06-01"⟩ = .ok s ∧
      s.value = some (listMean scenario_series - 273.15)) := by
  refine ⟨rfl, ?_, ⟨"MERRA2_400." ++ database_id ++ ".", ".nc4", rfl⟩, by simp [scenario_series], ?_⟩
  · rw [translate_lat_40, translate_lon_m105, snap_lat_260, snap_lon_120]
    norm_num
  · have hurl := url_ok_of_fn_ok (40 : ℚ) (-105) "2015-06-01" "2015" "06" "01"
      "MERRA2_400.inst1_2d_asm_Nx.20150601.nc4" rfl rfl
    have h := processRow_miss [] (fun _ => Except.ok scenario_series)
      ⟨"X", 40, -105, "2015-06-01"⟩ "2015" "06" "01" 2015
      "MERRA2_400.inst1_2d_asm_Nx.20150601.nc4" _ rfl rfl (by decide) rfl
      (by simp) hurl
    rw [aggStep_ok _ _ _ _ scenario_series rfl] at h
    exact ⟨_, h, rfl⟩

/-- Lines 164 and 167: the file name the loop expects for a row; note the
constant location label "MERRA2" in place of the row's station name. -/
def expectedFileName (r : Row) : Except String String :=
  match pySplit r.collected_at '-' with
  | [year, month, day] => generate_file_name "MERRA2" year month day database_id
  | _ => .error "ValueError: unpacking date failed"

/-- C10: rows with the same date get byte-identical expected file names
and reference the identical remote file (URLs differ only in the query
subscripts, and coincide entirely when the coordinates also agree); local
caches of two stations differ only in the station directory component. -/
theorem merra_claim_C10 (r1 r2 : Row) (hdate : r1.collected_at = r2.collected_at) :
    expectedFileName r1 = expectedFileName r2 ∧
    (∀ y m d, pySplit r1.collected_at '-' = [y, m, d] →
      expectedFileName r1 = generate_file_name "MERRA2" y m d database_id) ∧
    (∀ y m d fn, pySplit r1.collected_at '-' = [y, m, d] →
      generate_file_name "MERRA2" y m d database_id = .ok fn →
      ∃ params1 params2,
        generate_url_with_params "MERRA2" r1.latitude r1.longitude r1.collected_at =
          .ok (database_url ++ y ++ "/" ++ m ++ "/" ++ fn ++ ".nc4?" ++ params1) ∧
        generate_url_with_params "MERRA2" r2.latitude r2.longitude r2.collected_at =
          .ok (database_url ++ y ++ "/" ++ m ++ "/" ++ fn ++ ".nc4?" ++ params2)) ∧
    (r1.latitude = r2.latitude → r1.longitude = r2.longitude →
      generate_url_with_params "MERRA2" r1.latitude r1.longitude r1.collected_at =
        generate_url_with_params "MERRA2" r2.latitude r2.longitude r2.collected_at) ∧
    (∀ fn, r1.station_name ≠ r2.station_name →
      field_name ++ "/" ++ r1.station_name ++ "/" ++ fn ≠
        field_name ++ "/" ++ r2.station_name ++ "/" ++ fn) := by
  refine ⟨?_, ?_, ?_, ?_, ?_⟩
  · unfold expectedFileName
    rw [hdate]
  · intro y m d hsp
    unfold expectedFileName
    rw [hsp]
  · intro y m d fn hsp hfn
    refine ⟨_, _, url_ok_of_fn_ok r1.latitude r1.longitude r1.collected_at y m d fn hsp hfn,
      url_ok_of_fn_ok r2.latitude r2.longitude r2.collected_at y m d fn ?_ hfn⟩
    rw [← hdate]
    exact hsp
  · intro hlat hlon
    rw [hdate, hlat, hlon]
  · intro fn hne heq
    apply hne
    have hd := congrArg String.data heq
    simp only [String.data_append] at hd
    exact String.ext
      (List.append_cancel_left (List.append_cancel_right (List.append_cancel_right hd)))

theorem merra_claim_C10_witness :
    expectedFileName ⟨"A", 40, -105, "2015-06-01"⟩ =
      expectedFileName ⟨"B", 7, 8, "2015-06-01"⟩ ∧
    (∀ y m d, pySplit (⟨"A", 40, -105, "2015-06-01"⟩ : Row).collected_at '-' = [y, m, d] →
      expectedFileName ⟨"A", 40, -105, "2015-06-01"⟩ =
        generate_file_name "MERRA2" y m d database_id) ∧
    (∀ y m d fn, pySplit (⟨"A", 40, -105, "2015-06-01"⟩ : Row).collected_at '-' = [y, m, d] →
      generate_file_name "MERRA2" y m d database_id = .ok fn →
      ∃ params1 params2,
        generate_url_with_params "MERRA2"
          (⟨"A", 40, -105, "2015-06-01"⟩ : Row).latitude
          (⟨"A", 40, -105, "2015-06-01"⟩ : Row).longitude
          (⟨"A", 40, -105, "2015-06-01"⟩ : Row).collected_at =
          .ok (database_url ++ y ++ "/" ++ m ++ "/" ++ fn ++ ".nc4?" ++ params1) ∧
        generate_url_with_params "MERRA2"
          (⟨"B", 7, 8, "2015-06-01"⟩ : Row).latitude
          (⟨"B", 7, 8, "2015-06-01"⟩ : Row).longitude
          (⟨"B", 7, 8, "2015-06-01"⟩ : Row).collected_at =
          .ok (database_url ++ y ++ "/" ++ m ++ "/" ++ fn ++ ".nc4?" ++ params2)) ∧
    ((⟨"A", 40, -105, "2015-06-01"⟩ : Row).latitude =
        (⟨"B", 7, 8, "2015-06-01"⟩ : Row).latitude →
      (⟨"A", 40, -105, "2015-06-01"⟩ : Row).longitude =
        (⟨"B", 7, 8, "2015-06-01"⟩ : Row).longitude →
      generate_url_with_params "MERRA2"
        (⟨"A", 40, -105, "2015-06-01"⟩ : Row).latitude
        (⟨"A", 40, -105, "2015-06-01"⟩ : Row).longitude
        (⟨"A", 40, -105, "2015-06-01"⟩ : Row).collected_at =
      generate_url_with_params "MERRA2"
        (⟨"B", 7, 8, "2015-06-01"⟩ : Row).latitude
        (⟨"B", 7, 8, "2015-06-01"⟩ : Row).longitude
        (⟨"B", 7, 8, "2015-06-01"⟩ : Row).collected_at) ∧
    (∀ fn, (⟨"A", 40, -105, "2015-06-01"⟩ : Row).station_name ≠
        (⟨"B", 7, 8, "2015-06-01"⟩ : Row).station_name →
      field_name ++ "/" ++ (⟨"A", 40, -105, "2015-06-01"⟩ : Row).station_name ++ "/" ++ fn ≠
        field_name ++ "/" ++ (⟨"B", 7, 8, "2015-06-01"⟩ : Row).station_name ++ "/" ++ fn) :=
  merra_claim_C10 ⟨"A", 40, -105, "2015-06-01"⟩ ⟨"B", 7, 8, "2015-06-01"⟩ rfl

/-- The file-number code attached to a name always has three characters. -/
theorem translate_ok_length (y num : String)
    (h : translate_year_to_file_number y = .ok num) : num.data.length = 3 := by
  cases hp : pyInt y with
  | none =>
    have hstep : translate_year_to_file_number y =
        .error "ValueError: invalid literal for int" := by
      unfold translate_year_to_file_number
      rw [hp]
    rw [hstep] at h
    cases h
  | some yi =>
    have hstep : translate_year_to_file_number y = translate_year_to_file_number_int yi := by
      unfold translate_year_to_file_number
      rw [hp]
    rw [hstep] at h
    unfold translate_year_to_file_number_int at h
    split_ifs at h
    all_goals (injection h with hh; rw [← hh]; rfl)

/-- Successful file-name generation decomposes into a file number and the
literal concatenation of the formatted pieces. -/
theorem generate_file_name_ok (loc y m d n fn : String)
    (h : generate_file_name loc y m d n = .ok fn) :
    ∃ num, translate_year_to_file_number y = .ok num ∧
      fn = loc ++ "_" ++ num ++ "." ++ n ++ "." ++ y ++ m ++ d ++ ".nc4" := by
  unfold generate_file_name at h
  cases ht : translate_year_to_file_number y with
  | error e =>
    rw [ht] at h
    cases h
  | ok num =>
    rw [ht] at h
    simp only [Except.map] at h
    injection h with hh
    exact ⟨num, rfl, hh.symm⟩

/-- C8: file-name generation is a pure function of (location, year,
month, day, dataset id), and changing any single one of these inputs
while the name generation still succeeds changes the resulting name. -/
theorem merra_claim_C8 (loc y m d n : String) :
    generate_file_name loc y m d n = generate_file_name loc y m d n ∧
    (∀ loc2 fn fn2, generate_file_name loc y m d n = .ok fn →
      generate_file_name loc2 y m d n = .ok fn2 → loc ≠ loc2 → fn ≠ fn2) ∧
    (∀ y2 fn fn2, generate_file_name loc y m d n = .ok fn →
      generate_file_name loc y2 m d n = .ok fn2 → y ≠ y2 → fn ≠ fn2) ∧
    (∀ m2 fn fn2, generate_file_name loc y m d n = .ok fn →
      generate_file_name loc y m2 d n = .ok fn2 → m ≠ m2 → fn ≠ fn2) ∧
    (∀ d2 fn fn2, generate_file_name loc y m d n = .ok fn →
      generate_file_name loc y m d2 n = .ok fn2 → d ≠ d2 → fn ≠ fn2) ∧
    (∀ n2 fn fn2, generate_file_name loc y m d n = .ok fn →
      generate_file_name loc y m d n2 = .ok fn2 → n ≠ n2 → fn ≠ fn2) := by
  refine ⟨rfl, ?_, ?_, ?_, ?_, ?_⟩
  · intro loc2 fn fn2 h1 h2 hne hcontra
    obtain ⟨num, ht, rfl⟩ := generate_file_name_ok loc y m d n fn h1
    obtain ⟨num2, ht2, rfl⟩ := generate_file_name_ok loc2 y m d n fn2 h2
    rw [ht] at ht2
    injection ht2 with hnum
    subst hnum
    apply hne
    have hd := congrArg String.data hcontra
    simp only [String.data_append] at hd
    exact String.ext
      (List.append_cancel_right (List.append_cancel_right (List.append_cancel_right
        (List.append_cancel_right (List.append_cancel_right (List.append_cancel_right
          (List.append_cancel_right (List.append_cancel_right
            (List.append_cancel_right hd)))))))))
  · intro y2 fn fn2 h1 h2 hne hcontra
    obtain ⟨num, ht, rfl⟩ := generate_file_name_ok loc y m d n fn h1
    obtain ⟨num2, ht2, rfl⟩ := generate_file_name_ok loc y2 m d n fn2 h2
    apply hne
    have hd := congrArg String.data hcontra
    simp only [String.data_append] at hd
    have e3 := List.append_cancel_right (List.append_cancel_right
      (List.append_cancel_right hd))
    have hlen : (loc.data ++ "_".data ++ num.data ++ ".".data ++ n.data ++ ".".data).length =
        (loc.data ++ "_".data ++ num2.data ++ ".".data ++ n.data ++ ".".data).length := by
      simp only [List.length_append, translate_ok_length y num ht,
        translate_ok_length y2 num2 ht2]
    exact String.ext (List.append_inj e3 hlen).2
  · intro m2 fn fn2 h1 h2 hne hcontra
    obtain ⟨num, ht, rfl⟩ := generate_file_name_ok loc y m d n fn h1
    obtain ⟨num2, ht2, rfl⟩ := generate_file_name_ok loc y m2 d n fn2 h2
    rw [ht] at ht2
    injection ht2 with hnum
    subst hnum
    apply hne
    have hd := congrArg String.data hcontra
    simp only [String.data_append] at hd
    exact String.ext (List.append_cancel_left
      (List.append_cancel_right (List.append_cancel_right hd)))
  · intro d2 fn fn2 h1 h2 hne hcontra
    obtain ⟨num, ht, rfl⟩ := generate_file_name_ok loc y m d n fn h1
    obtain ⟨num2, ht2, rfl⟩ := generate_file_name_ok loc y m d2 n fn2 h2
    rw [ht] at ht2
    injection ht2 with hnum
    subst hnum
    apply hne
    have hd := congrArg String.data hcontra
    simp only [String.data_append] at hd
    exact String.ext (List.append_cancel_left (List.append_cancel_right hd))
  · intro n2 fn fn2 h1 h2 hne hcontra
    obtain ⟨num, ht, rfl⟩ := generate_file_name_ok loc y m d n fn h1
    obtain ⟨num2, ht2, rfl⟩ := generate_file_name_ok loc y m d n2 fn2 h2
    rw [ht] at ht2
    injection ht2 with hnum
    subst hnum
    apply hne
    have hd := congrArg String.data hcontra
    simp only [String.data_append] at hd
    exact String.ext (List.append_cancel_left
      (List.append_cancel_right (List.append_cancel_right (List.append_cancel_right
        (List.append_cancel_right (List.append_cancel_right hd))))))

theorem merra_claim_C8_witness :
    generate_file_name "MERRA2" "2015" "06" "01" database_id =
      generate_file_name "MERRA2" "2015" "06" "01" database_id ∧
    ("MERRA2_400.inst1_2d_asm_Nx.20150601.nc4" : String) ≠
      "OTHER_400.inst1_2d_asm_Nx.20150601.nc4" :=
  ⟨(merra_claim_C8 "MERRA2" "2015" "06" "01" database_id).1,
    (merra_claim_C8 "MERRA2" "2015" "06" "01" database_id).2.1 "OTHER"
      "MERRA2_400.inst1_2d_asm_Nx.20150601.nc4" "OTHER_400.inst1_2d_asm_Nx.20150601.nc4"
      rfl rfl (by decide)⟩

/-- A row actually receives a value exactly when its date parses, its year
is in range, its expected file name resolves, and opening plus reducing
the cached file succeeds. -/
def rowAggregates (oracle : String → Except String (List ℚ)) (r : Row) : Prop :=
  ∃ y m d yi fn series,
    pySplit r.collected_at '-' = [y, m, d] ∧ pyInt y = some yi ∧ ¬ yi < 1980 ∧
    generate_file_name "MERRA2" y m d database_id = .ok fn ∧
    oracle (field_name ++ "/" ++ r.station_name ++ "/" ++ fn) = .ok series

/-- The new-column cell of a successfully processed row is empty exactly
when the row does not aggregate (skipped, or the read raised). -/
theorem processRow_value_none (fs : List String) (oracle : String → Except String (List ℚ))
    (r : Row) (s : StepResult) (h : processRow fs oracle r = .ok s) :
    (s.value = none ↔ ¬ rowAggregates oracle r) := by
  unfold processRow at h
  split at h
  case _ y m d hsp =>
    split at h
    case _ hnone => exact absurd h (by simp)
    case _ yi hyi =>
      by_cases hlt : yi < 1980
      · rw [if_pos hlt] at h
        injection h with hs
        subst hs
        constructor
        · intro _
          rintro ⟨y2, m2, d2, yi2, fn2, series2, hsp2, hyi2, hge2, _, _⟩
          rw [hsp] at hsp2
          injection hsp2 with e1 etail
          injection etail with e2 etail2
          injection etail2 with e3 _
          subst e1
          rw [hyi] at hyi2
          injection hyi2 with e4
          subst e4
          exact hge2 hlt
        · intro _
          rfl
      · rw [if_neg hlt] at h
        split at h
        case _ e hfnerr => exact absurd h (by simp)
        case _ fn hfn =>
          by_cases hmem : (field_name ++ "/" ++ r.station_name ++ "/" ++ fn) ∈ fs
          · rw [if_pos hmem] at h
            injection h with hs
            subst hs
            cases horacle : oracle (field_name ++ "/" ++ r.station_name ++ "/" ++ fn) with
            | ok series =>
              have hagg : rowAggregates oracle r :=
                ⟨y, m, d, yi, fn, series, hsp, hyi, hlt, hfn, horacle⟩
              rw [aggStep_ok _ _ _ _ series horacle]
              simp [hagg]
            | error e =>
              have hnagg : ¬ rowAggregates oracle r := by
                rintro ⟨y2, m2, d2, yi2, fn2, series2, hsp2, hyi2, hge2, hfn2, hor2⟩
                rw [hsp] at hsp2
                injection hsp2 with e1 etail
                injection etail with e2 etail2
                injection etail2 with e3 _
                subst e1
                subst e2
                subst e3
                rw [hfn] at hfn2
                injection hfn2 with e4
                subst e4
                rw [horacle] at hor2
                cases hor2
              rw [aggStep_err _ _ _ _ e horacle]
              simp [hnagg]
          · rw [if_neg hmem] at h
            split at h
            case _ e hurlerr => exact absurd h (by simp)
            case _ url hurl =>
              injection h with hs
              subst hs
              cases horacle : oracle (field_name ++ "/" ++ r.station_name ++ "/" ++ fn) with
              | ok series =>
                have hagg : rowAggregates oracle r :=
                  ⟨y, m, d, yi, fn, series, hsp, hyi, hlt, hfn, horacle⟩
                rw [aggStep_ok _ _ _ _ series horacle]
                simp [hagg]
              | error e =>
                have hnagg : ¬ rowAggregates oracle r := by
                  rintro ⟨y2, m2, d2, yi2, fn2, series2, hsp2, hyi2, hge2, hfn2, hor2⟩
                  rw [hsp] at hsp2
                  injection hsp2 with e1 etail
                  injection etail with e2 etail2
                  injection etail2 with e3 _
                  subst e1
                  subst e2
                  subst e3
                  rw [hfn] at hfn2
                  injection hfn2 with e4
                  subst e4
                  rw [horacle] at hor2
                  cases hor2
                rw [aggStep_err _ _ _ _ e horacle]
                simp [hnagg]
  case _ hother => exact absurd h (by simp)

theorem runBatch_nil (fs : List String) (oracle : String → Except String (List ℚ)) :
    runBatch fs oracle [] = .ok [] := rfl

theorem runBatch_cons (fs : List String) (oracle : String → Except String (List ℚ))
    (r : Row) (rs : List Row) :
    runBatch fs oracle (r :: rs) =
      match processRow fs oracle r with
      | .error e => .error e
      | .ok s =>
        match runBatch fs oracle rs with
        | .error e => .error e
        | .ok out => .ok ((r, s.value) :: out) := rfl

/-- Every successful batch yields exactly the input rows, in order, each
paired with an optional value that is empty exactly for rows that do not
aggregate. -/
theorem runBatch_shape (fs : List String) (oracle : String → Except String (List ℚ)) :
    ∀ (rows : List Row) (out : List (Row × Option ℚ)),
      runBatch fs oracle rows = .ok out →
      out.map Prod.fst = rows ∧
      ∀ pr ∈ out, (pr.2 = none ↔ ¬ rowAggregates oracle pr.1) := by
  intro rows
  induction rows with
  | nil =>
    intro out h
    rw [runBatch_nil] at h
    injection h with h2
    subst h2
    simp
  | cons r rs ih =>
    intro out h
    rw [runBatch_cons] at h
    split at h
    case _ e hpr => exact absurd h (by simp)
    case _ s hpr =>
      split at h
      case _ e hrb => exact absurd h (by simp)
      case _ out2 hrb =>
        injection h with h2
        obtain ⟨ih1, ih2⟩ := ih out2 hrb
        subst h2
        constructor
        · simp [ih1]
        · intro pr hpr2
          rcases List.mem_cons.mp hpr2 with he | he
          · subst he
            exact processRow_value_none fs oracle r s hpr
          · exact ih2 pr he

/-- C9: the output location appends the processed-CSV suffix to the input
path, and a successful batch's table is the input rows unchanged plus one
optional numeric column, empty exactly for rows that were skipped or
whose aggregation failed. -/
theorem merra_claim_C9 (p : String) (fs : List String)
    (oracle : String → Except String (List ℚ)) (rows : List Row)
    (out : List (Row × Option ℚ)) (h : runBatch fs oracle rows = .ok out) :
    out_path p = p ++ "_MERRA2_processed.csv" ∧
    out.map Prod.fst = rows ∧
    ∀ pr ∈ out, (pr.2 = none ↔ ¬ rowAggregates oracle pr.1) := by
  obtain ⟨h1, h2⟩ := runBatch_shape fs oracle rows out h
  exact ⟨rfl, h1, h2⟩

theorem merra_claim_C9_witness :
    out_path "input.csv" = "input.csv" ++ "_MERRA2_processed.csv" ∧
    ([((⟨"A", 1, 2, "1975-06-01"⟩ : Row), (none : Option ℚ)),
      ((⟨"B", 3, 4, "2015-06-01"⟩ : Row),
        some (conversion_factor (listMean [(280 : ℚ), 290])))].map Prod.fst =
      [(⟨"A", 1, 2, "1975-06-01"⟩ : Row), ⟨"B", 3, 4, "2015-06-01"⟩]) ∧
    ∀ pr ∈ [((⟨"A", 1, 2, "1975-06-01"⟩ : Row), (none : Option ℚ)),
      ((⟨"B", 3, 4, "2015-06-01"⟩ : Row),
        some (conversion_factor (listMean [(280 : ℚ), 290])))],
      (pr.2 = none ↔ ¬ rowAggregates (fun _ => Except.ok [(280 : ℚ), 290]) pr.1) :=
  merra_claim_C9 "input.csv"
    [field_name ++ "/" ++ "B" ++ "/" ++ "MERRA2_400.inst1_2d_asm_Nx.20150601.nc4"]
    (fun _ => Except.ok [(280 : ℚ), 290])
    [⟨"A", 1, 2, "1975-06-01"⟩, ⟨"B", 3, 4, "2015-06-01"⟩]
    [((⟨"A", 1, 2, "1975-06-01"⟩ : Row), none),
      ((⟨"B", 3, 4, "2015-06-01"⟩ : Row),
        some (conversion_factor (listMean [(280 : ℚ), 290])))]
    rfl
